import Mathlib

/-!
Verification development for the admin event-verification endpoint of the
biztradefairs repository.

The repository contains several variants of the `POST /events/[id]/verify`
route handler.  Two are embedded here:

* `POST_part000` — the handler in `src/unnamed/part_000` (lines 15-105):
  filesystem badge storage, `verifiedBy` taken directly from the session
  email, and an unguarded `fs.unlinkSync` for the old badge.
* `POST_routeTs` — the handler at the end of
  `src/app/api/admin/events/[id]/verify/route.ts` (lines 617-742): the
  same flow, but `verifiedBy` falls back to `"Admin"` when the session
  email is missing, and the `unlinkSync` call sits in a `try/catch` that
  only logs a failure.

External collaborators (the prisma event table, the session, the
filesystem, the clock) are modelled as an explicit `World` record of
inputs; the side effects the handler performs (file store, file delete,
record commit) are collected in an ordered `trace` so that ordering
properties can be stated.  Code blocks of the handlers that the sources
mark with their own comment headers (the upload block, the delete-old
block) are embedded as named step functions used by both handler
embeddings.
-/

namespace BizVerify

/-- The well-known default verified badge reference, the string literal
used by every handler variant. -/
def defaultBadgeRef : String := "/badge/VerifiedBADGE (1).png"

/-- The four verification fields of an event record that the handler reads
and writes (`isVerified`, `verifiedAt`, `verifiedBy`,
`verifiedBadgeImage`).  Timestamps are modelled as `Nat`. -/
structure EventRec where
  isVerified : Bool
  verifiedAt : Option Nat
  verifiedBy : Option String
  verifiedBadgeImage : Option String
deriving DecidableEq, Repr

/-- An authenticated session: the role and optional email read from
`session.user`. -/
structure Session where
  role : String
  email : Option String
deriving DecidableEq, Repr

/-- An uploaded multipart file: its client-supplied name and its size in
bytes (the handler checks `badgeFile.size > 0`). -/
structure BadgeFile where
  name : String
  size : Nat
deriving DecidableEq, Repr

/-- The request body: the raw string value of the `isVerified` form field
(`none` when the field is absent) and the optional `badgeFile`. -/
structure VerifyRequest where
  isVerifiedField : Option String
  badgeFile : Option BadgeFile
deriving DecidableEq, Repr

/-- The environment a single POST call runs in: the session lookup result,
the current event record (`none` when the id is unknown), the clock, and
whether each external operation (file write, old-file existence check,
file unlink, prisma update) fails on this call. -/
structure World where
  session : Option Session
  event : Option EventRec
  now : Nat
  uploadFails : Bool
  oldFileExists : Bool
  deleteFails : Bool
  updateFails : Bool
deriving DecidableEq, Repr

/-- A side effect performed by the handler, in execution order:
storing the uploaded badge file, unlinking the old badge file, or
committing the updated event record. -/
inductive Effect where
  | store (ref : String)
  | deleteOld (ref : String)
  | commit (e : EventRec)
deriving DecidableEq, Repr

/-- The JSON body shapes the handler returns: `{error}` for the auth
failures, `{success: false, error}` for the catch-all 500, and
`{success: true, message, event}` on success (only the verification
fields of the returned event subset are modelled). -/
inductive RespBody where
  | plainError (error : String)
  | failureError (error : String)
  | success (message : String) (event : EventRec)
deriving DecidableEq, Repr

/-- The observable outcome of one POST call: HTTP status, body, the event
record as it stands after the call (`none` when the id was unknown), and
the ordered list of side effects that were performed. -/
structure Result where
  status : Nat
  body : RespBody
  finalEvent : Option EventRec
  trace : List Effect
deriving DecidableEq, Repr

/-- One character of JavaScript regexp whitespace `\s` (the common
cases). -/
def isWsChar (c : Char) : Bool :=
  c = ' ' || c = '\t' || c = '\n' || c = '\r' || c = '\x0b' || c = '\x0c'

/-- JavaScript whitespace collapsing as performed on the uploaded file
name by the upload block: each maximal run of whitespace becomes a single
dash. -/
def collapseWs (s : String) : String :=
  (s.toList.foldl
    (fun acc c =>
      if isWsChar c then
        (true, if acc.1 then acc.2 else acc.2.push '-')
      else
        (false, acc.2.push c))
    (false, "")).2

/-- The fresh badge reference produced by the upload block:
`/badges/` followed by `badge-`, the timestamp, `-`, and the collapsed
original file name. -/
def badgeImagePathOf (timestamp : Nat) (name : String) : String :=
  "/badges/badge-" ++ toString timestamp ++ "-" ++ collapseWs name

/-- The strict parse of the `isVerified` form field: true exactly when the
raw value is the string "true" (the triple-equals comparison in the
source). -/
def parseIsVerified (v : Option String) : Bool :=
  decide (v = some "true")

/-- The role guard: the handler rejects any session whose role is neither
`ADMIN` nor `SUPER_ADMIN`. -/
def roleAllowed (s : Session) : Bool :=
  s.role = "ADMIN" || s.role = "SUPER_ADMIN"

/-- The upload block (`part_000` lines 38-52 and `route.ts` lines
640-654): when a `badgeFile` with positive size is present, write it to
disk and produce the fresh badge path; `none` models the `writeFile` call
throwing, which the outer `catch` turns into a 500.  Returns the value of
`badgeImagePath` together with the store effect performed. -/
def uploadStep (uploadFails : Bool) (now : Nat) (f? : Option BadgeFile) :
    Option (Option String × List Effect) :=
  match f? with
  | some f =>
    if 0 < f.size then
      if uploadFails then none
      else
        some (some (badgeImagePathOf now f.name),
              [Effect.store (badgeImagePathOf now f.name)])
    else some (none, [])
  | none => some (none, [])

/-- The delete-old-badge block (`part_000` lines 60-68): unlink the old
file when the current record has a badge reference, that reference is not
the default, and the request is removing verification; the unlink is
attempted only when the file exists.  `none` models `unlinkSync`
throwing, which in `part_000` is not caught locally and so aborts the
call. -/
def deleteStepUnguarded (oldFileExists deleteFails : Bool)
    (prev : Option String) (isVerified : Bool) : Option (List Effect) :=
  match prev with
  | some p =>
    if p ≠ defaultBadgeRef ∧ isVerified = false then
      if oldFileExists then
        if deleteFails then none else some [Effect.deleteOld p]
      else some []
    else some []
  | none => some []

/-- The delete-old-badge block of `route.ts` lines 667-679: the same
block, but the `unlinkSync` call is wrapped in a `try/catch` that logs
the failure and continues, so a failed unlink contributes no effect and
never aborts. -/
def deleteStepGuarded (oldFileExists deleteFails : Bool)
    (prev : Option String) (isVerified : Bool) : List Effect :=
  (deleteStepUnguarded oldFileExists deleteFails prev isVerified).getD []

/-- The event record written by the prisma update, given the parsed
`isVerified` flag, the clock, the `verifiedBy` value chosen by the
variant, and the optional freshly stored badge path.  The JavaScript
expression `badgeImagePath || default` is `Option.getD` here: the stored
path always starts with `/badges/` and is never the empty string. -/
def updatedRecord (isVerified : Bool) (now : Nat) (vBy : Option String)
    (badgeImagePath : Option String) : EventRec :=
  { isVerified := isVerified
  , verifiedAt := if isVerified then some now else none
  , verifiedBy := if isVerified then vBy else none
  , verifiedBadgeImage :=
      if isVerified then some (badgeImagePath.getD defaultBadgeRef) else none }

/-- The 500 catch-all body of both variants. -/
def catchBody : RespBody := RespBody.failureError "Failed to update verification"

/-- The handler of `src/unnamed/part_000` (POST, lines 15-105), step by
step: session check (401), role check (403), parse the form, the upload
block, the `findUnique` read of the current badge reference, the
unguarded delete-old block (whose failure propagates to the catch-all),
then the prisma update — which throws when the id is unknown, caught as a
500 — and the 200 response with `{success, message, event}`. -/
def POST_part000 (w : World) (req : VerifyRequest) : Result :=
  match w.session with
  | none => ⟨401, RespBody.plainError "Unauthorized", w.event, []⟩
  | some s =>
    if s.role ≠ "ADMIN" ∧ s.role ≠ "SUPER_ADMIN" then
      ⟨403, RespBody.plainError "Forbidden", w.event, []⟩
    else
      let isVerified := parseIsVerified req.isVerifiedField
      match uploadStep w.uploadFails w.now req.badgeFile with
      | none => ⟨500, catchBody, w.event, []⟩
      | some (badgeImagePath, tr0) =>
        match deleteStepUnguarded w.oldFileExists w.deleteFails
            (w.event.bind EventRec.verifiedBadgeImage) isVerified with
        | none => ⟨500, catchBody, w.event, tr0⟩
        | some tr1 =>
          match w.event with
          | none => ⟨500, catchBody, none, tr0 ++ tr1⟩
          | some _ =>
            if w.updateFails then
              ⟨500, catchBody, w.event, tr0 ++ tr1⟩
            else
              let e := updatedRecord isVerified w.now s.email badgeImagePath
              ⟨200,
               RespBody.success
                 (if isVerified then "Event verified successfully"
                  else "Verification removed") e,
               some e,
               tr0 ++ tr1 ++ [Effect.commit e]⟩

/-- The handler at `src/app/api/admin/events/[id]/verify/route.ts` lines
617-742.  Identical flow to `POST_part000` except: the delete-old block
swallows an unlink failure (`try/catch` with a log), and `verifiedBy` is
`session.user.email || "Admin"`. -/
def POST_routeTs (w : World) (req : VerifyRequest) : Result :=
  match w.session with
  | none => ⟨401, RespBody.plainError "Unauthorized", w.event, []⟩
  | some s =>
    if s.role ≠ "ADMIN" ∧ s.role ≠ "SUPER_ADMIN" then
      ⟨403, RespBody.plainError "Forbidden", w.event, []⟩
    else
      let isVerified := parseIsVerified req.isVerifiedField
      match uploadStep w.uploadFails w.now req.badgeFile with
      | none => ⟨500, catchBody, w.event, []⟩
      | some (badgeImagePath, tr0) =>
        let tr1 := deleteStepGuarded w.oldFileExists w.deleteFails
          (w.event.bind EventRec.verifiedBadgeImage) isVerified
        match w.event with
        | none => ⟨500, catchBody, none, tr0 ++ tr1⟩
        | some _ =>
          if w.updateFails then
            ⟨500, catchBody, w.event, tr0 ++ tr1⟩
          else
            let e := updatedRecord isVerified w.now
              (some (s.email.getD "Admin")) badgeImagePath
            ⟨200,
             RespBody.success
               (if isVerified then "Event verified successfully"
                else "Verification removed") e,
             some e,
             tr0 ++ tr1 ++ [Effect.commit e]⟩

/-- The §3 invariant of the spec: the three nullable verification fields
are populated exactly when `isVerified` is set. -/
def invariantOk (e : EventRec) : Prop :=
  (e.isVerified = true ∧ e.verifiedAt.isSome ∧ e.verifiedBy.isSome
      ∧ e.verifiedBadgeImage.isSome)
  ∨ (e.isVerified = false ∧ e.verifiedAt = none ∧ e.verifiedBy = none
      ∧ e.verifiedBadgeImage = none)

/-! ### Sample fixtures used by the concrete counterexamples -/

/-- An event already verified with a custom (non-default) badge. -/
def evCustom : EventRec :=
  ⟨true, some 5, some "boss@biz.com", some "/badges/old-badge.png"⟩

/-- An admin session with an email. -/
def sessAdmin : Session := ⟨"ADMIN", some "admin@biz.com"⟩

end BizVerify

/-! ### Characterization lemmas for the embedded steps -/

namespace BizVerify

/-- Every effect emitted by the upload block is a store effect. -/
lemma uploadStep_mem_store (uf : Bool) (now : Nat) (f? : Option BadgeFile)
    (bp : Option String) (tr0 : List Effect)
    (h : uploadStep uf now f? = some (bp, tr0)) :
    ∀ x ∈ tr0, ∃ r, x = Effect.store r := by
  rcases f? with _ | f
  · simp only [uploadStep, Option.some.injEq, Prod.mk.injEq] at h
    obtain ⟨h1, h2⟩ := h
    subst h2
    simp
  · by_cases hs : 0 < f.size
    · cases uf
      · simp only [uploadStep, if_pos hs, Bool.false_eq_true, if_false,
          Option.some.injEq, Prod.mk.injEq] at h
        obtain ⟨h1, h2⟩ := h
        subst h2
        intro x hx
        simp only [List.mem_singleton] at hx
        exact ⟨_, hx⟩
      · simp [uploadStep, hs] at h
    · simp only [uploadStep, if_neg hs, Option.some.injEq, Prod.mk.injEq] at h
      obtain ⟨h1, h2⟩ := h
      subst h2
      simp

/-- Every effect emitted by the unguarded delete-old block deletes the
current non-default badge reference, and only on a removal request. -/
lemma deleteStepU_mem (ofe df : Bool) (prev : Option String) (iv : Bool)
    (tr1 : List Effect) (h : deleteStepUnguarded ofe df prev iv = some tr1) :
    ∀ x ∈ tr1, ∃ p, x = Effect.deleteOld p ∧ prev = some p ∧
      p ≠ defaultBadgeRef ∧ iv = false := by
  rcases prev with _ | p
  · simp only [deleteStepUnguarded, Option.some.injEq] at h
    subst h
    simp
  · by_cases hc : p ≠ defaultBadgeRef ∧ iv = false
    · cases ofe
      · simp only [deleteStepUnguarded, if_pos hc, Bool.false_eq_true,
          if_false, Option.some.injEq] at h
        subst h
        simp
      · cases df
        · simp only [deleteStepUnguarded, if_pos hc, if_true,
            Bool.false_eq_true, if_false, Option.some.injEq] at h
          subst h
          intro x hx
          simp only [List.mem_singleton] at hx
          subst hx
          exact ⟨p, rfl, rfl, hc.1, hc.2⟩
        · simp [deleteStepUnguarded, hc] at h
    · simp only [deleteStepUnguarded, if_neg hc, Option.some.injEq] at h
      subst h
      simp

/-- The record written by the update satisfies the §3 invariant whenever
the written `verifiedBy` value is present. -/
lemma invariantOk_updatedRecord (iv : Bool) (now : Nat) (x : String)
    (bp : Option String) : invariantOk (updatedRecord iv now (some x) bp) := by
  cases iv <;> simp [invariantOk, updatedRecord]

/-- Full outcome of a verify-true call with no badge file in the
`part_000` variant: a single commit of the updated record, whose badge
reference is the default. -/
lemma part000_verify_noupload (s : Session) (ev : EventRec) (now : Nat)
    (uf ofe df : Bool) (hrole : roleAllowed s = true) :
    POST_part000 ⟨some s, some ev, now, uf, ofe, df, false⟩ ⟨some "true", none⟩
      = ⟨200,
         RespBody.success "Event verified successfully"
           (updatedRecord true now s.email none),
         some (updatedRecord true now s.email none),
         [Effect.commit (updatedRecord true now s.email none)]⟩ := by
  obtain ⟨role, email⟩ := s
  simp only [roleAllowed, Bool.or_eq_true, decide_eq_true_eq] at hrole
  rcases hrole with rfl | rfl <;>
    cases hbv : ev.verifiedBadgeImage <;>
      simp [POST_part000, parseIsVerified, uploadStep, deleteStepUnguarded,
        hbv, Option.bind]

/-- Shape of every `part_000` trace: store effects, then delete effects,
then at most one commit. -/
lemma part000_trace_cases (w : World) (req : VerifyRequest) :
    ∃ tr0 tr1 tr2,
      (POST_part000 w req).trace = (tr0 ++ tr1) ++ tr2 ∧
      (∀ x ∈ tr0, ∃ r, x = Effect.store r) ∧
      (∀ x ∈ tr1, ∃ p, x = Effect.deleteOld p ∧ p ≠ defaultBadgeRef ∧
          parseIsVerified req.isVerifiedField = false) ∧
      (tr2 = [] ∨ ∃ rec, tr2 = [Effect.commit rec]) := by
  rcases hr : POST_part000 w req with ⟨st, bd, fe, tr⟩
  simp only
  simp only [POST_part000] at hr
  split at hr
  · refine ⟨[], [], [], ?_⟩
    simp only [Result.mk.injEq] at hr
    simp [← hr.2.2.2]
  · rename_i s hsess
    split at hr
    · refine ⟨[], [], [], ?_⟩
      simp only [Result.mk.injEq] at hr
      simp [← hr.2.2.2]
    · split at hr
      · refine ⟨[], [], [], ?_⟩
        simp only [Result.mk.injEq] at hr
        simp [← hr.2.2.2]
      · rename_i bp tr0 hup
        split at hr
        · refine ⟨tr0, [], [], ?_, ?_, ?_, ?_⟩
          · simp only [Result.mk.injEq] at hr
            simp [← hr.2.2.2]
          · exact uploadStep_mem_store _ _ _ _ _ hup
          · simp
          · simp
        · rename_i tr1 hdel
          have hd := deleteStepU_mem _ _ _ _ _ hdel
          split at hr
          · refine ⟨tr0, tr1, [], ?_, ?_, ?_, ?_⟩
            · simp only [Result.mk.injEq] at hr
              simp [← hr.2.2.2]
            · exact uploadStep_mem_store _ _ _ _ _ hup
            · intro x hx
              obtain ⟨p, hxe, _, hpd, hiv⟩ := hd x hx
              exact ⟨p, hxe, hpd, hiv⟩
            · simp
          · split at hr
            · refine ⟨tr0, tr1, [], ?_, ?_, ?_, ?_⟩
              · simp only [Result.mk.injEq] at hr
                simp [← hr.2.2.2]
              · exact uploadStep_mem_store _ _ _ _ _ hup
              · intro x hx
                obtain ⟨p, hxe, _, hpd, hiv⟩ := hd x hx
                exact ⟨p, hxe, hpd, hiv⟩
              · simp
            · refine ⟨tr0, tr1,
                [Effect.commit (updatedRecord (parseIsVerified req.isVerifiedField)
                  w.now s.email bp)], ?_, ?_, ?_, ?_⟩
              · simp only [Result.mk.injEq] at hr
                rw [← hr.2.2.2]
              · exact uploadStep_mem_store _ _ _ _ _ hup
              · intro x hx
                obtain ⟨p, hxe, _, hpd, hiv⟩ := hd x hx
                exact ⟨p, hxe, hpd, hiv⟩
              · right
                exact ⟨_, rfl⟩

end BizVerify

/-! ### Claim theorems -/

namespace BizVerify

/-- Exhaustive status analysis of the `part_000` handler: 401 without a
session, 403 on a bad role, and otherwise either the 500 catch-all or a
200 whose body carries the committed record. -/
lemma part000_status_cases (w : World) (req : VerifyRequest) :
    (w.session = none ∧ (POST_part000 w req).status = 401)
  ∨ (∃ s, w.session = some s ∧ (s.role ≠ "ADMIN" ∧ s.role ≠ "SUPER_ADMIN") ∧
      (POST_part000 w req).status = 403)
  ∨ ((∃ s, w.session = some s ∧ ¬(s.role ≠ "ADMIN" ∧ s.role ≠ "SUPER_ADMIN")) ∧
      ((POST_part000 w req).status = 500 ∨
       ((POST_part000 w req).status = 200 ∧ w.event ≠ none ∧
        ∃ m e, (POST_part000 w req).body = RespBody.success m e ∧
          (POST_part000 w req).finalEvent = some e))) := by
  rcases hr : POST_part000 w req with ⟨st, bd, fe, tr⟩
  simp only [POST_part000] at hr
  split at hr
  · rename_i heq
    simp only [Result.mk.injEq] at hr
    exact Or.inl ⟨heq, hr.1.symm⟩
  · rename_i s hsess
    split at hr
    · rename_i hcond
      simp only [Result.mk.injEq] at hr
      exact Or.inr (Or.inl ⟨s, hsess, hcond, hr.1.symm⟩)
    · rename_i hcond
      refine Or.inr (Or.inr ⟨⟨s, hsess, hcond⟩, ?_⟩)
      split at hr
      · simp only [Result.mk.injEq] at hr
        exact Or.inl hr.1.symm
      · rename_i bp tr0 hup
        split at hr
        · simp only [Result.mk.injEq] at hr
          exact Or.inl hr.1.symm
        · split at hr
          · simp only [Result.mk.injEq] at hr
            exact Or.inl hr.1.symm
          · rename_i val heq2
            split at hr
            · simp only [Result.mk.injEq] at hr
              exact Or.inl hr.1.symm
            · simp only [Result.mk.injEq] at hr
              exact Or.inr ⟨hr.1.symm, by simp [heq2],
                (if parseIsVerified req.isVerifiedField = true then
                  "Event verified successfully" else "Verification removed"),
                updatedRecord (parseIsVerified req.isVerifiedField) w.now
                  s.email bp,
                hr.2.1.symm, hr.2.2.1.symm⟩

/-- Outcome of any call whose `isVerified` field does not parse to true
(the removal path), with the external operations succeeding: 200, all
four verification fields cleared, a delete exactly for a non-default
previous reference, and a store exactly for a non-empty uploaded file. -/
lemma part000_unverify_chars (s : Session) (ev : EventRec) (now : Nat)
    (field : Option String) (file : Option BadgeFile)
    (hrole : roleAllowed s = true) (hfield : parseIsVerified field = false) :
    (POST_part000 ⟨some s, some ev, now, false, true, false, false⟩
        ⟨field, file⟩).status = 200 ∧
    (POST_part000 ⟨some s, some ev, now, false, true, false, false⟩
        ⟨field, file⟩).finalEvent = some ⟨false, none, none, none⟩ ∧
    ((∃ p, Effect.deleteOld p ∈
        (POST_part000 ⟨some s, some ev, now, false, true, false, false⟩
          ⟨field, file⟩).trace) ↔
      ∃ p, ev.verifiedBadgeImage = some p ∧ p ≠ defaultBadgeRef) ∧
    ((∃ q, Effect.store q ∈
        (POST_part000 ⟨some s, some ev, now, false, true, false, false⟩
          ⟨field, file⟩).trace) ↔
      ∃ f, file = some f ∧ 0 < f.size) := by
  obtain ⟨role, email⟩ := s
  simp only [roleAllowed, Bool.or_eq_true, decide_eq_true_eq] at hrole
  rcases file with _ | f
  · rcases hrole with rfl | rfl <;>
      cases hbv : ev.verifiedBadgeImage with
      | none =>
        simp [POST_part000, uploadStep, deleteStepUnguarded, updatedRecord,
          hfield, hbv, Option.bind]
      | some p =>
        by_cases hp : p = defaultBadgeRef <;>
          simp [POST_part000, uploadStep, deleteStepUnguarded, updatedRecord,
            hfield, hbv, hp, Option.bind]
  · by_cases hs : 0 < f.size <;>
      rcases hrole with rfl | rfl <;>
        cases hbv : ev.verifiedBadgeImage with
        | none =>
          simp [POST_part000, uploadStep, deleteStepUnguarded, updatedRecord,
            hfield, hbv, hs, Option.bind]
        | some p =>
          by_cases hp : p = defaultBadgeRef <;>
            simp [POST_part000, uploadStep, deleteStepUnguarded, updatedRecord,
              hfield, hbv, hp, hs, Option.bind]

/-- C1 (amended): for every POST verify call with requestedVerified true
and no uploaded image, the resulting `verifiedBadgeImage` is the default
badge reference, regardless of any previous reference: the handler never
preserves a previous badge reference on this path. -/
theorem c1_no_upload_yields_default_badge (s : Session) (ev : EventRec)
    (now : Nat) (uf ofe df : Bool) (hrole : roleAllowed s = true) :
    (POST_part000 ⟨some s, some ev, now, uf, ofe, df, false⟩
        ⟨some "true", none⟩).status = 200 ∧
    (POST_part000 ⟨some s, some ev, now, uf, ofe, df, false⟩
        ⟨some "true", none⟩).finalEvent.map EventRec.verifiedBadgeImage
      = some (some defaultBadgeRef) := by
  obtain ⟨role, email⟩ := s
  simp only [roleAllowed, Bool.or_eq_true, decide_eq_true_eq] at hrole
  rcases hrole with rfl | rfl <;>
    cases hbv : ev.verifiedBadgeImage <;>
      simp [POST_part000, parseIsVerified, uploadStep, deleteStepUnguarded,
        updatedRecord, hbv, Option.bind]

/-- C1 witness: the amended theorem instantiated at a concrete admin
session and event. -/
theorem c1_witness :
    roleAllowed sessAdmin = true ∧
    (POST_part000 ⟨some sessAdmin, some evCustom, 7, false, true, false, false⟩
        ⟨some "true", none⟩).status = 200 :=
  ⟨by decide,
   (c1_no_upload_yields_default_badge sessAdmin evCustom 7 false true false
      (by decide)).1⟩

/-- C1 counterexample: an event whose previous badge reference is a custom
path; a verify-true call without an upload rewrites `verifiedBadgeImage`
to the default reference instead of keeping the previous one, refuting
the claim as stated. -/
theorem c1_cex :
    evCustom.verifiedBadgeImage = some "/badges/old-badge.png" ∧
    (POST_part000 ⟨some sessAdmin, some evCustom, 7, false, true, false, false⟩
        ⟨some "true", none⟩).finalEvent.map EventRec.verifiedBadgeImage
      = some (some defaultBadgeRef) ∧
    some defaultBadgeRef ≠ (some "/badges/old-badge.png" : Option String) := by
  refine ⟨rfl, ?_, by decide⟩
  decide

/-- C2 (amended): every event record committed by the `route.ts` POST
variant — whose update defaults `verifiedBy` to the string Admin when the
session email is missing — satisfies the all-or-nothing invariant on the
four verification fields. -/
theorem c2_routeTs_commit_keeps_invariant (w : World) (req : VerifyRequest)
    (e : EventRec) (h200 : (POST_routeTs w req).status = 200)
    (hfin : (POST_routeTs w req).finalEvent = some e) : invariantOk e := by
  rcases hr : POST_routeTs w req with ⟨st, bd, fe, tr⟩
  rw [hr] at h200 hfin
  simp only at h200 hfin
  subst h200
  subst hfin
  simp only [POST_routeTs] at hr
  split at hr
  · simp at hr
  · split at hr
    · simp at hr
    · split at hr
      · simp at hr
      · split at hr
        · simp at hr
        · split at hr
          · simp at hr
          · simp only [Result.mk.injEq, Option.some.injEq] at hr
            obtain ⟨-, -, hfe, -⟩ := hr
            rw [← hfe]
            apply invariantOk_updatedRecord

/-- C2 witness: the amended theorem instantiated at a call with a null
session email. -/
theorem c2_witness :
    (POST_routeTs ⟨some ⟨"ADMIN", none⟩, some ⟨false, none, none, none⟩, 7,
        false, true, false, false⟩ ⟨some "true", none⟩).status = 200 ∧
    invariantOk ⟨true, some 7, some "Admin", some defaultBadgeRef⟩ :=
  ⟨by decide,
   c2_routeTs_commit_keeps_invariant
     ⟨some ⟨"ADMIN", none⟩, some ⟨false, none, none, none⟩, 7,
        false, true, false, false⟩ ⟨some "true", none⟩
     ⟨true, some 7, some "Admin", some defaultBadgeRef⟩
     (by decide) (by decide)⟩

/-- C2 counterexample: in the `part_000` variant a verify-true call from a
session with a null email commits a mixed state, `isVerified` true with
`verifiedBy` null, refuting the claim as stated. -/
theorem c2_cex :
    (POST_part000 ⟨some ⟨"ADMIN", none⟩, some ⟨false, none, none, none⟩, 7,
        false, true, false, false⟩ ⟨some "true", none⟩).finalEvent
      = some ⟨true, some 7, none, some defaultBadgeRef⟩ ∧
    ¬ invariantOk ⟨true, some 7, none, some defaultBadgeRef⟩ := by
  constructor
  · decide
  · simp [invariantOk]

/-- C3 (amended): with requestedVerified true and a non-empty uploaded
image the new badge reference is the freshly stored path, and the default
badge is never deleted on any input; but no delete of the superseded
previous badge is performed: the trace of the upload path is exactly a
store followed by the commit. -/
theorem c3_upload_fresh_ref_never_deletes :
    (∀ (s : Session) (ev : EventRec) (now : Nat) (ofe df : Bool) (f : BadgeFile),
      roleAllowed s = true → 0 < f.size →
      POST_part000 ⟨some s, some ev, now, false, ofe, df, false⟩
          ⟨some "true", some f⟩
        = ⟨200,
           RespBody.success "Event verified successfully"
             (updatedRecord true now s.email (some (badgeImagePathOf now f.name))),
           some (updatedRecord true now s.email (some (badgeImagePathOf now f.name))),
           [Effect.store (badgeImagePathOf now f.name),
            Effect.commit
              (updatedRecord true now s.email (some (badgeImagePathOf now f.name)))]⟩)
  ∧ (∀ (w : World) (req : VerifyRequest),
      Effect.deleteOld defaultBadgeRef ∉ (POST_part000 w req).trace) := by
  constructor
  · intro s ev now ofe df f hrole hsz
    obtain ⟨role, email⟩ := s
    simp only [roleAllowed, Bool.or_eq_true, decide_eq_true_eq] at hrole
    rcases hrole with rfl | rfl <;>
      cases hbv : ev.verifiedBadgeImage <;>
        simp [POST_part000, parseIsVerified, uploadStep, deleteStepUnguarded,
          hbv, hsz, Option.bind]
  · intro w req h
    obtain ⟨tr0, tr1, tr2, htr, hst, hdl, hcm⟩ := part000_trace_cases w req
    rw [htr] at h
    simp only [List.mem_append] at h
    rcases h with (h | h) | h
    · obtain ⟨r, hr⟩ := hst _ h
      simp at hr
    · obtain ⟨p, hp, hpd, -⟩ := hdl _ h
      rw [Effect.deleteOld.injEq] at hp
      exact hpd hp.symm
    · rcases hcm with rfl | ⟨rec, rfl⟩
      · simp at h
      · simp at h

/-- C3 witness: the upload branch of the amended theorem instantiated at a
concrete event carrying a custom previous badge. -/
theorem c3_witness :
    roleAllowed sessAdmin = true ∧ (0 : Nat) < 1 ∧
    (POST_part000 ⟨some sessAdmin, some evCustom, 7, false, true, false, false⟩
        ⟨some "true", some ⟨"new.png", 1⟩⟩).status = 200 :=
  ⟨by decide, by decide,
   by rw [c3_upload_fresh_ref_never_deletes.1 sessAdmin evCustom 7 true false
       ⟨"new.png", 1⟩ (by decide) (by decide)]⟩

/-- C3 counterexample: a verify-true call with an upload over an event
holding a distinct non-default previous reference performs no delete of
that reference — the trace holds only the store and the commit — refuting
the supersede-delete part of the claim. -/
theorem c3_cex :
    evCustom.verifiedBadgeImage = some "/badges/old-badge.png" ∧
    "/badges/old-badge.png" ≠ defaultBadgeRef ∧
    "/badges/old-badge.png" ≠ badgeImagePathOf 7 "new.png" ∧
    POST_part000 ⟨some sessAdmin, some evCustom, 7, false, true, false, false⟩
        ⟨some "true", some ⟨"new.png", 1⟩⟩
      = ⟨200,
         RespBody.success "Event verified successfully"
           ⟨true, some 7, some "admin@biz.com", some "/badges/badge-7-new.png"⟩,
         some ⟨true, some 7, some "admin@biz.com", some "/badges/badge-7-new.png"⟩,
         [Effect.store "/badges/badge-7-new.png",
          Effect.commit
            ⟨true, some 7, some "admin@biz.com", some "/badges/badge-7-new.png"⟩]⟩ := by
  decide

/-- C4 (amended): in every execution the commit, when present, is the last
side effect: every store and every delete precedes it.  The delete of the
old asset is thus performed before the record commit, not after it. -/
theorem c4_effects_precede_commit (w : World) (req : VerifyRequest)
    (e : EventRec) (h : Effect.commit e ∈ (POST_part000 w req).trace) :
    ∃ l, (POST_part000 w req).trace = l ++ [Effect.commit e] ∧
      ∀ x ∈ l, (∃ r, x = Effect.store r) ∨ ∃ p, x = Effect.deleteOld p := by
  obtain ⟨tr0, tr1, tr2, htr, hst, hdl, hcm⟩ := part000_trace_cases w req
  rw [htr] at h ⊢
  rcases hcm with rfl | ⟨rec, rfl⟩
  · simp only [List.append_nil, List.mem_append] at h
    rcases h with h | h
    · obtain ⟨r, hr⟩ := hst _ h
      simp at hr
    · obtain ⟨p, hp, -, -⟩ := hdl _ h
      simp at hp
  · have he : e = rec := by
      simp only [List.mem_append, List.mem_singleton] at h
      rcases h with (h | h) | h
      · obtain ⟨r, hr⟩ := hst _ h
        simp at hr
      · obtain ⟨p, hp, -, -⟩ := hdl _ h
        simp at hp
      · simpa using h
    subst he
    refine ⟨tr0 ++ tr1, rfl, ?_⟩
    intro x hx
    rcases List.mem_append.mp hx with h0 | h1
    · exact Or.inl (hst _ h0)
    · obtain ⟨p, hp, -, -⟩ := hdl _ h1
      exact Or.inr ⟨p, hp⟩

/-- C4 witness: the amended theorem instantiated at a call whose trace
holds a commit. -/
theorem c4_witness :
    Effect.commit ⟨true, some 7, some "admin@biz.com", some defaultBadgeRef⟩
        ∈ (POST_part000 ⟨some sessAdmin, some evCustom, 7, false, true, false,
            false⟩ ⟨some "true", none⟩).trace ∧
    ∃ l, (POST_part000 ⟨some sessAdmin, some evCustom, 7, false, true, false,
            false⟩ ⟨some "true", none⟩).trace
        = l ++ [Effect.commit
            ⟨true, some 7, some "admin@biz.com", some defaultBadgeRef⟩] ∧
      ∀ x ∈ l, (∃ r, x = Effect.store r) ∨ ∃ p, x = Effect.deleteOld p :=
  ⟨by decide, c4_effects_precede_commit _ _ _ (by decide)⟩

/-- C4 counterexample: a removal call whose record update fails performs
the delete of the old badge first and then returns 500 without any
commit, leaving the record still pointing at the deleted asset. -/
theorem c4_cex :
    POST_part000 ⟨some sessAdmin, some evCustom, 7, false, true, false, true⟩
        ⟨some "false", none⟩
      = ⟨500, catchBody, some evCustom,
         [Effect.deleteOld "/badges/old-badge.png"]⟩ ∧
    evCustom.verifiedBadgeImage = some "/badges/old-badge.png" := by
  decide

/-- C5: when the badge upload step fails for a non-empty uploaded file,
the whole call answers 500 with the failure body, the event record is
exactly the pre-call record, and no side effect is performed. -/
theorem c5_upload_failure_aborts (s : Session) (ev? : Option EventRec)
    (now : Nat) (field : Option String) (f : BadgeFile) (ofe df upf : Bool)
    (hrole : roleAllowed s = true) (hsz : 0 < f.size) :
    POST_part000 ⟨some s, ev?, now, true, ofe, df, upf⟩ ⟨field, some f⟩
      = ⟨500, catchBody, ev?, []⟩ := by
  obtain ⟨role, email⟩ := s
  simp only [roleAllowed, Bool.or_eq_true, decide_eq_true_eq] at hrole
  rcases hrole with rfl | rfl <;>
    simp [POST_part000, uploadStep, hsz]

/-- C5 witness: the theorem instantiated at a concrete verified event. -/
theorem c5_witness :
    roleAllowed sessAdmin = true ∧ 0 < (1 : Nat) ∧
    POST_part000 ⟨some sessAdmin, some evCustom, 7, true, true, false, false⟩
        ⟨some "true", some ⟨"x.png", 1⟩⟩
      = ⟨500, catchBody, some evCustom, []⟩ :=
  ⟨by decide, by decide,
   c5_upload_failure_aborts sessAdmin (some evCustom) 7 (some "true")
     ⟨"x.png", 1⟩ true false false (by decide) (by decide)⟩

/-- C6 (amended): in the `route.ts` variant a failing unlink of the old
badge is swallowed: the call still commits the cleared record and answers
200 with the removal message. -/
theorem c6_routeTs_delete_failure_swallowed (s : Session) (ev : EventRec)
    (now : Nat) (p : String) (hrole : roleAllowed s = true)
    (hbv : ev.verifiedBadgeImage = some p) (hp : p ≠ defaultBadgeRef) :
    POST_routeTs ⟨some s, some ev, now, false, true, true, false⟩
        ⟨some "false", none⟩
      = ⟨200, RespBody.success "Verification removed" ⟨false, none, none, none⟩,
         some ⟨false, none, none, none⟩,
         [Effect.commit ⟨false, none, none, none⟩]⟩ := by
  obtain ⟨role, email⟩ := s
  have hpf : parseIsVerified (some "false") = false := by decide
  simp only [roleAllowed, Bool.or_eq_true, decide_eq_true_eq] at hrole
  rcases hrole with rfl | rfl <;>
    simp [POST_routeTs, uploadStep, deleteStepGuarded, deleteStepUnguarded,
      updatedRecord, hpf, hbv, hp, Option.bind]

/-- C6 witness: the amended theorem instantiated at a concrete event with
a custom previous badge. -/
theorem c6_witness :
    evCustom.verifiedBadgeImage = some "/badges/old-badge.png" ∧
    (POST_routeTs ⟨some sessAdmin, some evCustom, 7, false, true, true, false⟩
        ⟨some "false", none⟩).status = 200 :=
  ⟨by decide,
   by rw [c6_routeTs_delete_failure_swallowed sessAdmin evCustom 7
       "/badges/old-badge.png" (by decide) (by decide) (by decide)]⟩

/-- C6 counterexample: in the `part_000` variant a failing unlink of the
old badge aborts the call with a 500 and no record update, refuting the
claim that a delete failure is logged and the operation completes. -/
theorem c6_cex :
    POST_part000 ⟨some sessAdmin, some evCustom, 7, false, true, true, false⟩
        ⟨some "false", none⟩
      = ⟨500, catchBody, some evCustom, []⟩ := by
  decide

/-- C7 (amended): the handler answers 401 exactly when unauthenticated,
403 exactly when the role is not elevated, never 404, 200 only with a
success body carrying the committed record, and on every authorized call
the outcome is either that 200 success or otherwise 500 — in particular
500 when the event id is unknown (the update throws into the
catch-all). -/
theorem c7_response_statuses (w : World) (req : VerifyRequest) :
    ((POST_part000 w req).status = 401 ↔ w.session = none)
  ∧ ((POST_part000 w req).status = 403 ↔
      ∃ s, w.session = some s ∧ s.role ≠ "ADMIN" ∧ s.role ≠ "SUPER_ADMIN")
  ∧ (POST_part000 w req).status ≠ 404
  ∧ ((POST_part000 w req).status = 200 →
      ∃ m e, (POST_part000 w req).body = RespBody.success m e ∧
        (POST_part000 w req).finalEvent = some e)
  ∧ (∀ s, w.session = some s → roleAllowed s = true →
      ((POST_part000 w req).status = 200 ∧
        ∃ m e, (POST_part000 w req).body = RespBody.success m e ∧
          (POST_part000 w req).finalEvent = some e) ∨
      (POST_part000 w req).status = 500)
  ∧ (∀ s, w.session = some s → roleAllowed s = true → w.event = none →
      (POST_part000 w req).status = 500) := by
  refine ⟨?_, ?_, ?_, ?_, ?_, ?_⟩
  · constructor
    · intro h
      rcases part000_status_cases w req with ⟨hs, h401⟩ |
        ⟨s, hs, hcond, h403⟩ | ⟨⟨s, hs, hcond⟩, h500 | ⟨h200, hev, hpack⟩⟩
      · exact hs
      · omega
      · omega
      · omega
    · intro h
      rcases part000_status_cases w req with ⟨hs, h401⟩ |
        ⟨s, hs, hcond, h403⟩ | ⟨⟨s, hs, hcond⟩, h500 | ⟨h200, hev, hpack⟩⟩
      · exact h401
      · simp [h] at hs
      · simp [h] at hs
      · simp [h] at hs
  · constructor
    · intro h
      rcases part000_status_cases w req with ⟨hs, h401⟩ |
        ⟨s, hs, hcond, h403⟩ | ⟨⟨s, hs, hcond⟩, h500 | ⟨h200, hev, hpack⟩⟩
      · omega
      · exact ⟨s, hs, hcond⟩
      · omega
      · omega
    · rintro ⟨s, hs, hcond⟩
      rcases part000_status_cases w req with ⟨hs2, h401⟩ |
        ⟨s2, hs2, hcond2, h403⟩ | ⟨⟨s2, hs2, hcond2⟩, h500 | ⟨h200, hev, hpack⟩⟩
      · simp [hs2] at hs
      · exact h403
      · rw [hs] at hs2
        obtain rfl : s = s2 := by injection hs2
        exact absurd hcond hcond2
      · rw [hs] at hs2
        obtain rfl : s = s2 := by injection hs2
        exact absurd hcond hcond2
  · rcases part000_status_cases w req with ⟨hs, h401⟩ |
      ⟨s, hs, hcond, h403⟩ | ⟨⟨s, hs, hcond⟩, h500 | ⟨h200, hev, hpack⟩⟩ <;>
      omega
  · intro h
    rcases part000_status_cases w req with ⟨hs, h401⟩ |
      ⟨s, hs, hcond, h403⟩ | ⟨⟨s, hs, hcond⟩, h500 | ⟨h200, hev, hpack⟩⟩
    · omega
    · omega
    · omega
    · exact hpack
  · intro s1 hs1 hrole1
    rcases part000_status_cases w req with ⟨hs, h401⟩ |
      ⟨s, hs, hcond, h403⟩ | ⟨⟨s, hs, hcond⟩, h500 | ⟨h200, hev, hpack⟩⟩
    · simp [hs1] at hs
    · rw [hs1] at hs
      obtain rfl : s1 = s := by injection hs
      simp only [roleAllowed, Bool.or_eq_true, decide_eq_true_eq] at hrole1
      rcases hrole1 with h | h
      · exact absurd h hcond.1
      · exact absurd h hcond.2
    · exact Or.inr h500
    · exact Or.inl ⟨h200, hpack⟩
  · intro s1 hs1 hrole1 hev1
    rcases part000_status_cases w req with ⟨hs, h401⟩ |
      ⟨s, hs, hcond, h403⟩ | ⟨⟨s, hs, hcond⟩, h500 | ⟨h200, hev, hpack⟩⟩
    · simp [hs1] at hs
    · rw [hs1] at hs
      obtain rfl : s1 = s := by injection hs
      simp only [roleAllowed, Bool.or_eq_true, decide_eq_true_eq] at hrole1
      rcases hrole1 with h | h
      · exact absurd h hcond.1
      · exact absurd h hcond.2
    · exact h500
    · exact absurd hev1 hev

/-- C7 witness: the amended theorem instantiated at an unauthenticated
call, at an authorized call whose upload fails (the otherwise-500 arm of
the partition), and at an unknown event id. -/
theorem c7_witness :
    ((POST_part000 ⟨none, some evCustom, 7, false, true, false, false⟩
        ⟨some "true", none⟩).status = 401 ↔
      (⟨none, some evCustom, 7, false, true, false, false⟩ : World).session
        = none) ∧
    (((POST_part000 ⟨some sessAdmin, some evCustom, 7, true, true, false,
          false⟩ ⟨some "true", some ⟨"x.png", 1⟩⟩).status = 200 ∧
      ∃ m e, (POST_part000 ⟨some sessAdmin, some evCustom, 7, true, true,
            false, false⟩ ⟨some "true", some ⟨"x.png", 1⟩⟩).body
          = RespBody.success m e ∧
        (POST_part000 ⟨some sessAdmin, some evCustom, 7, true, true, false,
            false⟩ ⟨some "true", some ⟨"x.png", 1⟩⟩).finalEvent = some e) ∨
      (POST_part000 ⟨some sessAdmin, some evCustom, 7, true, true, false,
          false⟩ ⟨some "true", some ⟨"x.png", 1⟩⟩).status = 500) ∧
    (POST_part000 ⟨some sessAdmin, none, 7, false, true, false, false⟩
        ⟨some "true", none⟩).status = 500 :=
  ⟨(c7_response_statuses ⟨none, some evCustom, 7, false, true, false, false⟩
      ⟨some "true", none⟩).1,
   (c7_response_statuses ⟨some sessAdmin, some evCustom, 7, true, true,
        false, false⟩ ⟨some "true", some ⟨"x.png", 1⟩⟩).2.2.2.2.1 sessAdmin
     rfl (by decide),
   (c7_response_statuses ⟨some sessAdmin, none, 7, false, true, false, false⟩
      ⟨some "true", none⟩).2.2.2.2.2 sessAdmin rfl (by decide) rfl⟩

/-- C7 counterexample: an authorized call on an unknown event id answers
500, not the 404 the claim requires. -/
theorem c7_cex :
    (POST_part000 ⟨some sessAdmin, none, 7, false, true, false, false⟩
        ⟨some "true", none⟩).status = 500 ∧
    (POST_part000 ⟨some sessAdmin, none, 7, false, true, false, false⟩
        ⟨some "true", none⟩).status ≠ 404 := by
  decide

/-- C8 (amended): a removal call clears all four verification fields and,
with the old file present and the unlink succeeding, deletes the previous
badge exactly when it was set and not the default; however a store is
still performed exactly when a non-empty badge file accompanies the
request — the upload block is not gated on the requested state. -/
theorem c8_unverify_fields_and_actions (s : Session) (ev : EventRec)
    (now : Nat) (field : Option String) (file : Option BadgeFile)
    (hrole : roleAllowed s = true) (hfield : parseIsVerified field = false) :
    (POST_part000 ⟨some s, some ev, now, false, true, false, false⟩
        ⟨field, file⟩).status = 200 ∧
    (POST_part000 ⟨some s, some ev, now, false, true, false, false⟩
        ⟨field, file⟩).finalEvent = some ⟨false, none, none, none⟩ ∧
    ((∃ p, Effect.deleteOld p ∈
        (POST_part000 ⟨some s, some ev, now, false, true, false, false⟩
          ⟨field, file⟩).trace) ↔
      ∃ p, ev.verifiedBadgeImage = some p ∧ p ≠ defaultBadgeRef) ∧
    ((∃ q, Effect.store q ∈
        (POST_part000 ⟨some s, some ev, now, false, true, false, false⟩
          ⟨field, file⟩).trace) ↔
      ∃ f, file = some f ∧ 0 < f.size) :=
  part000_unverify_chars s ev now field file hrole hfield

/-- C8 witness: the amended theorem instantiated at a removal call without
an upload. -/
theorem c8_witness :
    (POST_part000 ⟨some sessAdmin, some evCustom, 7, false, true, false, false⟩
        ⟨some "false", none⟩).status = 200 ∧
    (POST_part000 ⟨some sessAdmin, some evCustom, 7, false, true, false, false⟩
        ⟨some "false", none⟩).finalEvent = some ⟨false, none, none, none⟩ :=
  ⟨(c8_unverify_fields_and_actions sessAdmin evCustom 7 (some "false") none
      (by decide) (by decide)).1,
   (c8_unverify_fields_and_actions sessAdmin evCustom 7 (some "false") none
      (by decide) (by decide)).2.1⟩

/-- C8 counterexample: a removal call carrying a non-empty badge file
still stores the uploaded file (first trace entry), refuting the
no-store part of the claim. -/
theorem c8_cex :
    POST_part000 ⟨some sessAdmin, some evCustom, 7, false, true, false, false⟩
        ⟨some "false", some ⟨"x.png", 1⟩⟩
      = ⟨200, RespBody.success "Verification removed" ⟨false, none, none, none⟩,
         some ⟨false, none, none, none⟩,
         [Effect.store "/badges/badge-7-x.png",
          Effect.deleteOld "/badges/old-badge.png",
          Effect.commit ⟨false, none, none, none⟩]⟩ := by
  decide

/-- C9: two consecutive verify-true calls without an upload yield the same
`verifiedBadgeImage` after each call; on this code path both calls write
the default badge reference. -/
theorem c9_verify_twice_same_badge (s : Session) (ev : EventRec)
    (now1 now2 : Nat) (uf1 uf2 ofe1 ofe2 df1 df2 : Bool)
    (hrole : roleAllowed s = true) :
    (POST_part000 ⟨some s,
        (POST_part000 ⟨some s, some ev, now1, uf1, ofe1, df1, false⟩
          ⟨some "true", none⟩).finalEvent,
        now2, uf2, ofe2, df2, false⟩ ⟨some "true", none⟩).finalEvent.map
        EventRec.verifiedBadgeImage
      = (POST_part000 ⟨some s, some ev, now1, uf1, ofe1, df1, false⟩
          ⟨some "true", none⟩).finalEvent.map EventRec.verifiedBadgeImage ∧
    (POST_part000 ⟨some s, some ev, now1, uf1, ofe1, df1, false⟩
        ⟨some "true", none⟩).finalEvent.map EventRec.verifiedBadgeImage
      = some (some defaultBadgeRef) := by
  rw [part000_verify_noupload s ev now1 uf1 ofe1 df1 hrole]
  simp only [Option.map_some]
  rw [part000_verify_noupload s (updatedRecord true now1 s.email none) now2
    uf2 ofe2 df2 hrole]
  simp [updatedRecord]

/-- C9 witness: the theorem instantiated at a concrete event with two
different clock values. -/
theorem c9_witness :
    roleAllowed sessAdmin = true ∧
    (POST_part000 ⟨some sessAdmin,
        (POST_part000 ⟨some sessAdmin, some evCustom, 7, false, true, false,
            false⟩ ⟨some "true", none⟩).finalEvent,
        9, false, true, false, false⟩ ⟨some "true", none⟩).finalEvent.map
        EventRec.verifiedBadgeImage
      = (POST_part000 ⟨some sessAdmin, some evCustom, 7, false, true, false,
            false⟩ ⟨some "true", none⟩).finalEvent.map
          EventRec.verifiedBadgeImage :=
  ⟨by decide,
   (c9_verify_twice_same_badge sessAdmin evCustom 7 9 false false true true
      false false (by decide)).1⟩

/-- C10: the form field parses to true exactly for the string "true"; any
other value drives the removal path, which clears the four verification
fields. -/
theorem c10_isVerified_strict_parsing :
    (∀ v, parseIsVerified v = true ↔ v = some "true")
  ∧ (∀ (s : Session) (ev : EventRec) (now : Nat) (v : Option String),
      roleAllowed s = true → v ≠ some "true" →
      (POST_part000 ⟨some s, some ev, now, false, true, false, false⟩
          ⟨v, none⟩).status = 200 ∧
      (POST_part000 ⟨some s, some ev, now, false, true, false, false⟩
          ⟨v, none⟩).finalEvent = some ⟨false, none, none, none⟩) := by
  constructor
  · intro v
    simp [parseIsVerified]
  · intro s ev now v hrole hv
    have hfield : parseIsVerified v = false := by
      simp [parseIsVerified, hv]
    have h := part000_unverify_chars s ev now v none hrole hfield
    exact ⟨h.1, h.2.1⟩

/-- C10 witness: the parsing theorem applied to the value "True", which is
treated as a removal request. -/
theorem c10_witness :
    (POST_part000 ⟨some sessAdmin, some evCustom, 7, false, true, false, false⟩
        ⟨some "True", none⟩).status = 200 ∧
    (POST_part000 ⟨some sessAdmin, some evCustom, 7, false, true, false, false⟩
        ⟨some "True", none⟩).finalEvent = some ⟨false, none, none, none⟩ :=
  c10_isVerified_strict_parsing.2 sessAdmin evCustom 7 (some "True")
    (by decide) (by decide)

end BizVerify
